import Mathlib

/-!
Shallow embedding of the messaging simulation of this repository
(`src/week7.3-ex1.py` and `src/week7.2-ex1.py`): the `Message` record, the
`PostOffice` state (global id counter plus one mailbox per user), and the
operations `send_message`, `read_inbox` and `search_inbox`, in both the
week-7.3 version (Message objects, a `count > len` guard in `read_inbox`)
and the week-7.2 version (dict entries, no such guard).

Python dictionaries keyed by username are modelled as association lists
with first-match lookup and first-match update; a raised `KeyError` or
`IndexError` becomes an `Except.error`, paired with the state the object
holds at the moment of the raise.
-/

set_option autoImplicit false

/-- Error kinds surfaced by the operations: `recipientNotFound` models the
`KeyError` raised at a dict subscript with an unknown username, `indexError`
the `IndexError` raised by an out-of-range list subscript. -/
inductive PostError where
  | recipientNotFound
  | indexError
  deriving DecidableEq, Repr

/-- First-match lookup in an association list, the behaviour of
`self.boxes[username]` reads. -/
def lookupBox {α : Type} : List (String × α) → String → Option α
  | [], _ => none
  | (k, v) :: rest, u => if k = u then some v else lookupBox rest u

/-- First-match in-place update: the mailbox stored under the key is
replaced, every other entry kept; an absent key leaves the list unchanged
(the operations only call it on keys they have just looked up). -/
def updateBox {α : Type} : List (String × α) → String → α → List (String × α)
  | [], _, _ => []
  | (k, v) :: rest, u, w =>
    if k = u then (k, w) :: rest else (k, v) :: updateBox rest u w

/-- Whether (`startsWith s p`) the char list `s` begins with `p` (case-sensitive). -/
def startsWith : List Char → List Char → Bool
  | _, [] => true
  | [], _ :: _ => false
  | a :: s, b :: p => a == b && startsWith s p

/-- Whether (`hasSubstr s p`) the list `p` occurs contiguously inside `s`; the semantics of
Python's `p in s` on strings (always true for an empty `p`). -/
def hasSubstr : List Char → List Char → Bool
  | [], p => startsWith [] p
  | s@(_ :: rest), p => startsWith s p || hasSubstr rest p

/-- Python's substring test `sub in body`, case-sensitive and literal. -/
def containsSubstr (body sub : String) : Bool :=
  hasSubstr body.data sub.data

namespace W73

/-- The `Message` class of `week7.3-ex1.py`: sender, recipient, title, body,
read flag and assigned id. -/
structure Message where
  sender : String
  recipient : String
  title : String
  body : String
  is_read : Bool
  message_id : Int
  deriving DecidableEq, Repr

/-- Model of `Message.__init__`: the read flag starts `false` and `message_id` holds
the placeholder `1`. -/
def mkMessage (sender recipient title body : String) : Message :=
  { sender := sender, recipient := recipient, title := title, body := body,
    is_read := false, message_id := 1 }

/-- Model of `Message.add_message_id`: overwrite the stored id, no guard. -/
def Message.add_message_id (m : Message) (message_id : Int) : Message :=
  { m with message_id := message_id }

/-- Model of `Message.len`: the length of the body. -/
def Message.len (m : Message) : Nat :=
  m.body.length

/-- The `PostOffice` class of `week7.3-ex1.py`: the global id counter
`message_id` (starts at 0) and the mailboxes keyed by username. -/
structure PostOffice where
  message_id : Nat
  boxes : List (String × List Message)
  deriving DecidableEq, Repr

/-- Model of `PostOffice.__init__`: counter 0, one empty mailbox per username. -/
def mkPostOffice (usernames : List String) : PostOffice :=
  { message_id := 0, boxes := usernames.map (fun user => (user, [])) }

/-- Model of `PostOffice.send_message`: look the recipient's box up (raising
`KeyError` first, before any mutation), increment the counter, insert the
message object itself at the front if urgent and at the back otherwise, and
return the new counter value.  The message's own `message_id` field is not
touched. -/
def send_message (po : PostOffice) (message : Message) (urgent : Bool) :
    Except PostError Nat × PostOffice :=
  match lookupBox po.boxes message.recipient with
  | none => (Except.error PostError.recipientNotFound, po)
  | some user_box =>
    let mid := po.message_id + 1
    let box2 := if urgent then message :: user_box else user_box ++ [message]
    (Except.ok mid, { message_id := mid, boxes := updateBox po.boxes message.recipient box2 })

/-- Model of `PostOffice.read_inbox` of week 7.3: the scan window is the whole
mailbox when `messages_number` is `-1` or exceeds the mailbox length, and
the first `messages_number` entries otherwise (`range` of a negative number
is empty, hence `Int.toNat`); the previously-unread messages of the window
are collected in order, then every window entry is marked read. -/
def read_inbox (po : PostOffice) (username : String) (messages_number : Int) :
    Except PostError (List Message) × PostOffice :=
  match lookupBox po.boxes username with
  | none => (Except.error PostError.recipientNotFound, po)
  | some box =>
    let n : Nat :=
      if messages_number = -1 ∨ messages_number > (box.length : Int)
      then box.length else messages_number.toNat
    let massages := (box.take n).filter (fun m => m.is_read == false)
    let box2 := (box.take n).map (fun m => { m with is_read := true }) ++ box.drop n
    (Except.ok massages, { po with boxes := updateBox po.boxes username box2 })

/-- Model of `PostOffice.search_inbox`: the messages of the whole mailbox whose body
contains the string, in mailbox order; no mutation. -/
def search_inbox (po : PostOffice) (username : String) (string_to_search : String) :
    Except PostError (List Message) × PostOffice :=
  match lookupBox po.boxes username with
  | none => (Except.error PostError.recipientNotFound, po)
  | some box =>
    (Except.ok (box.filter (fun message => containsSubstr message.body string_to_search)), po)

end W73

namespace W72

/-- The dict `message_details` built by `send_message` of `week7.2-ex1.py`:
keys `id`, `body`, `sender`, `unread`. -/
structure MessageDetails where
  id : Nat
  body : String
  sender : String
  unread : Bool
  deriving DecidableEq, Repr

/-- The `PostOffice` class of `week7.2-ex1.py`. -/
structure PostOffice where
  message_id : Nat
  boxes : List (String × List MessageDetails)
  deriving DecidableEq, Repr

/-- Model of `PostOffice.__init__`: counter 0, one empty mailbox per username. -/
def mkPostOffice (usernames : List String) : PostOffice :=
  { message_id := 0, boxes := usernames.map (fun user => (user, [])) }

/-- Model of `PostOffice.send_message` of week 7.2: recipient lookup first, counter
increment, then a fresh `message_details` entry (carrying the new id and
`unread = true`) goes to the front if urgent and to the back otherwise. -/
def send_message (po : PostOffice) (sender recipient message_body : String)
    (urgent : Bool) : Except PostError Nat × PostOffice :=
  match lookupBox po.boxes recipient with
  | none => (Except.error PostError.recipientNotFound, po)
  | some user_box =>
    let mid := po.message_id + 1
    let message_details : MessageDetails :=
      { id := mid, body := message_body, sender := sender, unread := true }
    let box2 := if urgent then message_details :: user_box else user_box ++ [message_details]
    (Except.ok mid, { message_id := mid, boxes := updateBox po.boxes recipient box2 })

/-- Model of `PostOffice.read_inbox` of week 7.2: only the exact `-1` is widened to
the mailbox length; a `messages_number` larger than the mailbox length makes
the comprehension subscript out of range (`IndexError`, raised before any
read flag is flipped), and a negative one gives an empty `range`. -/
def read_inbox (po : PostOffice) (username : String) (messages_number : Int) :
    Except PostError (List MessageDetails) × PostOffice :=
  match lookupBox po.boxes username with
  | none => (Except.error PostError.recipientNotFound, po)
  | some box =>
    let mn : Int := if messages_number = -1 then (box.length : Int) else messages_number
    if mn > (box.length : Int) then (Except.error PostError.indexError, po)
    else
      let n : Nat := mn.toNat
      let massages := (box.take n).filter (fun m => m.unread)
      let box2 := (box.take n).map (fun m => { m with unread := false }) ++ box.drop n
      (Except.ok massages, { po with boxes := updateBox po.boxes username box2 })

/-- Model of `PostOffice.search_inbox` of week 7.2: filter the whole mailbox by body
containment; no mutation. -/
def search_inbox (po : PostOffice) (username : String) (string_to_search : String) :
    Except PostError (List MessageDetails) × PostOffice :=
  match lookupBox po.boxes username with
  | none => (Except.error PostError.recipientNotFound, po)
  | some box =>
    (Except.ok (box.filter (fun message => containsSubstr message.body string_to_search)), po)

end W72

/-! ### Association-list lemmas -/

theorem lookup_update_self {α : Type} (bs : List (String × α)) (u : String) (v w : α)
    (h : lookupBox bs u = some w) : lookupBox (updateBox bs u v) u = some v := by
  induction bs with
  | nil => simp [lookupBox] at h
  | cons kv rest ih =>
    obtain ⟨k, x⟩ := kv
    by_cases hk : k = u
    · simp [lookupBox, updateBox, hk]
    · simp only [lookupBox, updateBox, hk, if_false] at h ⊢
      exact ih h

theorem lookup_update_ne {α : Type} (bs : List (String × α)) (u u' : String) (v : α)
    (h : u' ≠ u) : lookupBox (updateBox bs u v) u' = lookupBox bs u' := by
  induction bs with
  | nil => simp [updateBox]
  | cons kv rest ih =>
    obtain ⟨k, x⟩ := kv
    by_cases hk : k = u
    · subst hk
      have : ¬ (k = u') := fun he => h (he ▸ rfl)
      simp [lookupBox, updateBox, this]
    · by_cases hk' : k = u' <;> simp [lookupBox, updateBox, hk, hk', h, ih]

theorem update_self_eq {α : Type} (bs : List (String × α)) (u : String) (v : α)
    (h : lookupBox bs u = some v) : updateBox bs u v = bs := by
  induction bs with
  | nil => rfl
  | cons kv rest ih =>
    obtain ⟨k, x⟩ := kv
    by_cases hk : k = u
    · simp only [lookupBox, hk, if_true, Option.some.injEq] at h
      simp [updateBox, hk, h]
    · simp only [lookupBox, hk, if_false] at h
      simp [updateBox, hk, ih h]

/-! ### Characterization of the week-7.3 operations -/

namespace W73

theorem send_message_ok (po : PostOffice) (m : Message) (urgent : Bool)
    (box : List Message) (h : lookupBox po.boxes m.recipient = some box) :
    send_message po m urgent =
      (Except.ok (po.message_id + 1),
       { message_id := po.message_id + 1,
         boxes := updateBox po.boxes m.recipient
           (if urgent then m :: box else box ++ [m]) }) := by
  simp [send_message, h]

theorem send_message_err (po : PostOffice) (m : Message) (urgent : Bool)
    (h : lookupBox po.boxes m.recipient = none) :
    send_message po m urgent = (Except.error PostError.recipientNotFound, po) := by
  simp [send_message, h]

theorem read_inbox_whole (po : PostOffice) (u : String) (c : Int)
    (box : List Message) (h : lookupBox po.boxes u = some box)
    (hc : c = -1 ∨ c > (box.length : Int)) :
    read_inbox po u c =
      (Except.ok (box.filter (fun m => m.is_read == false)),
       { po with boxes := (updateBox po.boxes u
           (box.map (fun m => { m with is_read := true }))) }) := by
  simp [read_inbox, h, hc]

theorem read_inbox_window (po : PostOffice) (u : String) (c : Int)
    (box : List Message) (h : lookupBox po.boxes u = some box)
    (hc : ¬ (c = -1 ∨ c > (box.length : Int))) :
    read_inbox po u c =
      (Except.ok ((box.take c.toNat).filter (fun m => m.is_read == false)),
       { po with boxes := (updateBox po.boxes u
           ((box.take c.toNat).map (fun m => { m with is_read := true })
              ++ box.drop c.toNat)) }) := by
  simp [read_inbox, h, hc]

theorem read_inbox_err (po : PostOffice) (u : String) (c : Int)
    (h : lookupBox po.boxes u = none) :
    read_inbox po u c = (Except.error PostError.recipientNotFound, po) := by
  simp [read_inbox, h]

theorem search_inbox_ok (po : PostOffice) (u s : String)
    (box : List Message) (h : lookupBox po.boxes u = some box) :
    search_inbox po u s =
      (Except.ok (box.filter (fun m => containsSubstr m.body s)), po) := by
  simp [search_inbox, h]

end W73

/-! ### Characterization of the week-7.2 operations -/

namespace W72

theorem send_message_ok_w72 (po : PostOffice) (sender recipient body : String)
    (urgent : Bool) (box : List MessageDetails)
    (h : lookupBox po.boxes recipient = some box) :
    send_message po sender recipient body urgent =
      (Except.ok (po.message_id + 1),
       { message_id := po.message_id + 1,
         boxes := updateBox po.boxes recipient
           (if urgent
            then { id := po.message_id + 1, body := body, sender := sender,
                   unread := true } :: box
            else box ++ [{ id := po.message_id + 1, body := body, sender := sender,
                           unread := true }]) }) := by
  simp [send_message, h]

theorem send_message_err_w72 (po : PostOffice) (sender recipient body : String)
    (urgent : Bool) (h : lookupBox po.boxes recipient = none) :
    send_message po sender recipient body urgent =
      (Except.error PostError.recipientNotFound, po) := by
  simp [send_message, h]

theorem read_inbox_all (po : PostOffice) (u : String)
    (box : List MessageDetails) (h : lookupBox po.boxes u = some box) :
    read_inbox po u (-1) =
      (Except.ok (box.filter (fun m => m.unread)),
       { po with boxes := (updateBox po.boxes u
           (box.map (fun m => { m with unread := false }))) }) := by
  simp [read_inbox, h]

theorem read_inbox_oob (po : PostOffice) (u : String) (c : Int)
    (box : List MessageDetails) (h : lookupBox po.boxes u = some box)
    (hc1 : c ≠ -1) (hc2 : c > (box.length : Int)) :
    read_inbox po u c = (Except.error PostError.indexError, po) := by
  simp [read_inbox, h, hc1, hc2]

theorem read_inbox_window_w72 (po : PostOffice) (u : String) (c : Int)
    (box : List MessageDetails) (h : lookupBox po.boxes u = some box)
    (hc1 : c ≠ -1) (hc2 : ¬ c > (box.length : Int)) :
    read_inbox po u c =
      (Except.ok ((box.take c.toNat).filter (fun m => m.unread)),
       { po with boxes := (updateBox po.boxes u
           ((box.take c.toNat).map (fun m => { m with unread := false })
              ++ box.drop c.toNat)) }) := by
  simp [read_inbox, h, hc1, hc2]

theorem search_inbox_ok_w72 (po : PostOffice) (u s : String)
    (box : List MessageDetails) (h : lookupBox po.boxes u = some box) :
    search_inbox po u s =
      (Except.ok (box.filter (fun m => containsSubstr m.body s)), po) := by
  simp [search_inbox, h]

end W72

namespace W73

/-- Run a list of `send_message` requests in order from a starting state,
collecting each call's result. -/
def runSends (po : PostOffice) : List (Message × Bool) → List (Except PostError Nat) × PostOffice
  | [] => ([], po)
  | (m, urgent) :: rest =>
    ((send_message po m urgent).1 :: (runSends (send_message po m urgent).2 rest).1,
     (runSends (send_message po m urgent).2 rest).2)

/-- When every send of a trace succeeds, the results read
`counter+1, counter+2, ...` and the counter advances by the trace length. -/
theorem runSends_ids (reqs : List (Message × Bool)) : ∀ po : PostOffice,
    ((runSends po reqs).1.all Except.isOk = true) →
    (runSends po reqs).1
      = (List.range reqs.length).map (fun i => Except.ok (po.message_id + i + 1))
    ∧ (runSends po reqs).2.message_id = po.message_id + reqs.length := by
  induction reqs with
  | nil => intro po _; simp [runSends]
  | cons req rest ih =>
    intro po h
    obtain ⟨m, urgent⟩ := req
    simp only [runSends, List.all_cons, Bool.and_eq_true] at h
    obtain ⟨h1, h2⟩ := h
    cases hl : lookupBox po.boxes m.recipient with
    | none =>
      rw [send_message_err po m urgent hl] at h1
      simp [Except.isOk, Except.toBool] at h1
    | some box =>
      simp only [runSends, send_message_ok po m urgent box hl] at h2 ⊢
      obtain ⟨ha, hb⟩ := ih _ h2
      refine ⟨?_, by simp [hb]; omega⟩
      simp only [ha]
      rw [List.length_cons, List.range_succ_eq_map, List.map_cons, List.map_map]
      have hfun : ((fun i => Except.ok (po.message_id + i + 1) :
            Nat → Except PostError Nat) ∘ Nat.succ)
          = fun i => Except.ok (po.message_id + 1 + i + 1) := by
        funext i
        simp only [Function.comp]
        congr 1
        omega
      rw [hfun]

end W73

namespace W72

/-- Run a list of week-7.2 `send_message` requests
`(sender, recipient, body, urgent)` in order, collecting each result. -/
def runSends (po : PostOffice) :
    List (String × String × String × Bool) → List (Except PostError Nat) × PostOffice
  | [] => ([], po)
  | (sender, recipient, body, urgent) :: rest =>
    ((send_message po sender recipient body urgent).1 ::
       (runSends (send_message po sender recipient body urgent).2 rest).1,
     (runSends (send_message po sender recipient body urgent).2 rest).2)

/-- Week-7.2 analogue of `W73.runSends_ids`. -/
theorem runSends_ids_w72 (reqs : List (String × String × String × Bool)) :
    ∀ po : PostOffice,
    ((runSends po reqs).1.all Except.isOk = true) →
    (runSends po reqs).1
      = (List.range reqs.length).map (fun i => Except.ok (po.message_id + i + 1))
    ∧ (runSends po reqs).2.message_id = po.message_id + reqs.length := by
  induction reqs with
  | nil => intro po _; simp [runSends]
  | cons req rest ih =>
    intro po h
    obtain ⟨sender, recipient, body, urgent⟩ := req
    simp only [runSends, List.all_cons, Bool.and_eq_true] at h
    obtain ⟨h1, h2⟩ := h
    cases hl : lookupBox po.boxes recipient with
    | none =>
      rw [send_message_err_w72 po sender recipient body urgent hl] at h1
      simp [Except.isOk, Except.toBool] at h1
    | some box =>
      simp only [runSends, send_message_ok_w72 po sender recipient body urgent box hl] at h2 ⊢
      obtain ⟨ha, hb⟩ := ih _ h2
      refine ⟨?_, by simp [hb]; omega⟩
      simp only [ha]
      rw [List.length_cons, List.range_succ_eq_map, List.map_cons, List.map_map]
      have hfun : ((fun i => Except.ok (po.message_id + i + 1) :
            Nat → Except PostError Nat) ∘ Nat.succ)
          = fun i => Except.ok (po.message_id + 1 + i + 1) := by
        funext i
        simp only [Function.comp]
        congr 1
        omega
      rw [hfun]

end W72

/-! ### C1 -/

/-- C1: on a freshly constructed PostOffice the counter starts at 0, and for
every trace of send calls in which each call succeeds, the returned ids are
exactly 1, 2, 3, ... in order with no gaps — independent of each request's
recipient and urgent flag — the counter having been incremented once per
successful send; in the week-7.3 and in the week-7.2 implementation. -/
theorem send_ids_consecutive (users : List String) (reqs : List (W73.Message × Bool))
    (h : (W73.runSends (W73.mkPostOffice users) reqs).1.all Except.isOk = true)
    (users' : List String) (reqs' : List (String × String × String × Bool))
    (h' : (W72.runSends (W72.mkPostOffice users') reqs').1.all Except.isOk = true) :
    (W73.mkPostOffice users).message_id = 0
    ∧ (W73.runSends (W73.mkPostOffice users) reqs).1
        = (List.range reqs.length).map (fun i => Except.ok (i + 1))
    ∧ (W73.runSends (W73.mkPostOffice users) reqs).2.message_id = reqs.length
    ∧ (W72.mkPostOffice users').message_id = 0
    ∧ (W72.runSends (W72.mkPostOffice users') reqs').1
        = (List.range reqs'.length).map (fun i => Except.ok (i + 1))
    ∧ (W72.runSends (W72.mkPostOffice users') reqs').2.message_id = reqs'.length := by
  obtain ⟨ha, hb⟩ := W73.runSends_ids reqs _ h
  obtain ⟨hc, hd⟩ := W72.runSends_ids_w72 reqs' _ h'
  refine ⟨rfl, ?_, ?_, rfl, ?_, ?_⟩
  · rw [ha]; simp [W73.mkPostOffice]
  · rw [hb]; simp [W73.mkPostOffice]
  · rw [hc]; simp [W72.mkPostOffice]
  · rw [hd]; simp [W72.mkPostOffice]

/-- Witness for C1: a concrete three-send trace (mixed recipients and urgent
flags) returns ids 1, 2, 3, and a concrete two-send week-7.2 trace returns
ids 1, 2. -/
theorem send_ids_consecutive_witness :
    (W73.mkPostOffice ["a", "b"]).message_id = 0
    ∧ (W73.runSends (W73.mkPostOffice ["a", "b"])
         [(W73.mkMessage "a" "b" "t" "x", false),
          (W73.mkMessage "b" "a" "u" "y", true),
          (W73.mkMessage "a" "b" "v" "z", false)]).1
        = (List.range 3).map (fun i => Except.ok (i + 1))
    ∧ (W73.runSends (W73.mkPostOffice ["a", "b"])
         [(W73.mkMessage "a" "b" "t" "x", false),
          (W73.mkMessage "b" "a" "u" "y", true),
          (W73.mkMessage "a" "b" "v" "z", false)]).2.message_id = 3
    ∧ (W72.mkPostOffice ["n"]).message_id = 0
    ∧ (W72.runSends (W72.mkPostOffice ["n"])
         [("m", "n", "hi", false), ("m", "n", "yo", true)]).1
        = (List.range 2).map (fun i => Except.ok (i + 1))
    ∧ (W72.runSends (W72.mkPostOffice ["n"])
         [("m", "n", "hi", false), ("m", "n", "yo", true)]).2.message_id = 2 :=
  send_ids_consecutive ["a", "b"]
    [(W73.mkMessage "a" "b" "t" "x", false),
     (W73.mkMessage "b" "a" "u" "y", true),
     (W73.mkMessage "a" "b" "v" "z", false)] (by decide)
    ["n"] [("m", "n", "hi", false), ("m", "n", "yo", true)] (by decide)

/-! ### Concrete sample states used by the witnesses -/

/-- An already-read sample message addressed to `"a"`. -/
def sampleRead : W73.Message :=
  { sender := "x", recipient := "a", title := "t1", body := "Hello world",
    is_read := true, message_id := 1 }

/-- A still-unread sample message addressed to `"a"`. -/
def sampleUnread : W73.Message :=
  { sender := "y", recipient := "a", title := "t2", body := "Bye now",
    is_read := false, message_id := 1 }

/-- A week-7.3 office: user `"a"` holds one read and one unread message,
user `"b"` an empty mailbox. -/
def samplePO73 : W73.PostOffice :=
  { message_id := 5, boxes := [("a", [sampleRead, sampleUnread]), ("b", [])] }

/-- An already-read week-7.2 entry. -/
def sampleRead72 : W72.MessageDetails :=
  { id := 1, body := "Hello", sender := "x", unread := false }

/-- A still-unread week-7.2 entry. -/
def sampleUnread72 : W72.MessageDetails :=
  { id := 2, body := "are you", sender := "y", unread := true }

/-- A week-7.2 office: user `"n"` holds one read and one unread entry. -/
def samplePO72 : W72.PostOffice :=
  { message_id := 7, boxes := [("n", [sampleRead72, sampleUnread72])] }

/-! ### C2 -/

/-- C2: for a registered user, `read_inbox` with the ALL sentinel `-1`
returns exactly the messages of that mailbox that were unread before the
call, in mailbox order (already-read ones excluded), and afterwards every
message of the mailbox is marked read; in both implementations. -/
theorem read_inbox_all_marks_read
    (po : W73.PostOffice) (u : String) (box : List W73.Message)
    (h : lookupBox po.boxes u = some box)
    (po' : W72.PostOffice) (u' : String) (box' : List W72.MessageDetails)
    (h' : lookupBox po'.boxes u' = some box') :
    ((W73.read_inbox po u (-1)).1
        = Except.ok (box.filter (fun m => m.is_read == false))
     ∧ (∀ m ∈ box.filter (fun m => m.is_read == false), m.is_read = false)
     ∧ lookupBox (W73.read_inbox po u (-1)).2.boxes u
         = some (box.map (fun m => { m with is_read := true }))
     ∧ (∀ m ∈ box.map (fun m : W73.Message => { m with is_read := true }),
          m.is_read = true))
    ∧ ((W72.read_inbox po' u' (-1)).1
        = Except.ok (box'.filter (fun m => m.unread))
     ∧ (∀ m ∈ box'.filter (fun m => m.unread), m.unread = true)
     ∧ lookupBox (W72.read_inbox po' u' (-1)).2.boxes u'
         = some (box'.map (fun m => { m with unread := false }))
     ∧ (∀ m ∈ box'.map (fun m : W72.MessageDetails => { m with unread := false }),
          m.unread = false)) := by
  have e := W73.read_inbox_whole po u (-1) box h (Or.inl rfl)
  have e' := W72.read_inbox_all po' u' box' h'
  refine ⟨⟨?_, ?_, ?_, ?_⟩, ?_, ?_, ?_, ?_⟩
  · rw [e]
  · intro m hm
    simp only [List.mem_filter, beq_iff_eq] at hm
    exact hm.2
  · rw [e]
    exact lookup_update_self po.boxes u _ box h
  · intro m hm
    simp only [List.mem_map] at hm
    obtain ⟨x, -, rfl⟩ := hm
    rfl
  · rw [e']
  · intro m hm
    simp only [List.mem_filter] at hm
    exact hm.2
  · rw [e']
    exact lookup_update_self po'.boxes u' _ box' h'
  · intro m hm
    simp only [List.mem_map] at hm
    obtain ⟨x, -, rfl⟩ := hm
    rfl

/-- Witness for C2 on the sample offices: the unread message alone is
returned and both mailbox entries end up read. -/
theorem read_inbox_all_marks_read_witness :
    ((W73.read_inbox samplePO73 "a" (-1)).1
        = Except.ok ([sampleRead, sampleUnread].filter (fun m => m.is_read == false))
     ∧ (∀ m ∈ [sampleRead, sampleUnread].filter (fun m => m.is_read == false),
          m.is_read = false)
     ∧ lookupBox (W73.read_inbox samplePO73 "a" (-1)).2.boxes "a"
         = some ([sampleRead, sampleUnread].map (fun m => { m with is_read := true }))
     ∧ (∀ m ∈ [sampleRead, sampleUnread].map
            (fun m : W73.Message => { m with is_read := true }),
          m.is_read = true))
    ∧ ((W72.read_inbox samplePO72 "n" (-1)).1
        = Except.ok ([sampleRead72, sampleUnread72].filter (fun m => m.unread))
     ∧ (∀ m ∈ [sampleRead72, sampleUnread72].filter (fun m => m.unread),
          m.unread = true)
     ∧ lookupBox (W72.read_inbox samplePO72 "n" (-1)).2.boxes "n"
         = some ([sampleRead72, sampleUnread72].map (fun m => { m with unread := false }))
     ∧ (∀ m ∈ [sampleRead72, sampleUnread72].map
            (fun m : W72.MessageDetails => { m with unread := false }),
          m.unread = false)) :=
  read_inbox_all_marks_read samplePO73 "a" [sampleRead, sampleUnread] (by decide)
    samplePO72 "n" [sampleRead72, sampleUnread72] (by decide)

/-! ### C3 -/

/-- Counterexample to C3 as stated: in the week-7.2 implementation a count
of 5 on a registered two-entry mailbox does not scan the entire mailbox —
the call fails with an index error (and leaves the state unchanged). -/
theorem read_inbox_overcount_fails_w72 :
    W72.read_inbox samplePO72 "n" 5 = (Except.error PostError.indexError, samplePO72) := rfl

/-- C3 (amended): for a registered user, a count of `-1` — or, in the
week-7.3 implementation, any count exceeding the mailbox length — scans the
entire mailbox without failing; a non-sentinel count not exceeding the
length scans exactly the first `count` entries in mailbox order, returns the
previously-unread ones among them, marks only those entries as read and
leaves every message past the window unchanged, in both implementations; in
the week-7.2 implementation a non-sentinel count exceeding the mailbox
length instead fails with an index error, leaving the state unchanged. -/
theorem read_inbox_window_amended
    (po : W73.PostOffice) (u : String) (box : List W73.Message)
    (h : lookupBox po.boxes u = some box)
    (po' : W72.PostOffice) (u' : String) (box' : List W72.MessageDetails)
    (h' : lookupBox po'.boxes u' = some box') (c : Int) :
    ((c = -1 ∨ c > (box.length : Int) →
        W73.read_inbox po u c =
          (Except.ok (box.filter (fun m => m.is_read == false)),
           { po with boxes := (updateBox po.boxes u
               (box.map (fun m => { m with is_read := true }))) }))
     ∧ (¬ (c = -1 ∨ c > (box.length : Int)) →
        W73.read_inbox po u c =
          (Except.ok ((box.take c.toNat).filter (fun m => m.is_read == false)),
           { po with boxes := (updateBox po.boxes u
               ((box.take c.toNat).map (fun m => { m with is_read := true })
                  ++ box.drop c.toNat)) })))
    ∧ (W72.read_inbox po' u' (-1) =
         (Except.ok (box'.filter (fun m => m.unread)),
          { po' with boxes := (updateBox po'.boxes u'
              (box'.map (fun m => { m with unread := false }))) }))
    ∧ (c ≠ -1 → c > (box'.length : Int) →
         W72.read_inbox po' u' c = (Except.error PostError.indexError, po'))
    ∧ (c ≠ -1 → ¬ c > (box'.length : Int) →
         W72.read_inbox po' u' c =
           (Except.ok ((box'.take c.toNat).filter (fun m => m.unread)),
            { po' with boxes := (updateBox po'.boxes u'
                ((box'.take c.toNat).map (fun m => { m with unread := false })
                   ++ box'.drop c.toNat)) })) :=
  ⟨⟨fun hc => W73.read_inbox_whole po u c box h hc,
    fun hc => W73.read_inbox_window po u c box h hc⟩,
   W72.read_inbox_all po' u' box' h',
   fun h1 h2 => W72.read_inbox_oob po' u' c box' h' h1 h2,
   fun h1 h2 => W72.read_inbox_window_w72 po' u' c box' h' h1 h2⟩

/-- Witness for the amended C3: count 5 on the two-entry week-7.3 mailbox
scans it whole; count 1 scans only the front entry, leaving the second
unread; count 5 on the week-7.2 mailbox fails with an index error; count 1
there marks only the front entry. -/
theorem read_inbox_window_amended_witness :
    (W73.read_inbox samplePO73 "a" 5 =
       (Except.ok ([sampleRead, sampleUnread].filter (fun m => m.is_read == false)),
        { samplePO73 with boxes := (updateBox samplePO73.boxes "a"
            ([sampleRead, sampleUnread].map (fun m => { m with is_read := true }))) }))
    ∧ (W73.read_inbox samplePO73 "a" 1 =
       (Except.ok (([sampleRead, sampleUnread].take (1 : Int).toNat).filter
            (fun m => m.is_read == false)),
        { samplePO73 with boxes := (updateBox samplePO73.boxes "a"
            (([sampleRead, sampleUnread].take (1 : Int).toNat).map
                (fun m => { m with is_read := true })
              ++ [sampleRead, sampleUnread].drop (1 : Int).toNat)) }))
    ∧ (W72.read_inbox samplePO72 "n" 5 = (Except.error PostError.indexError, samplePO72))
    ∧ (W72.read_inbox samplePO72 "n" 1 =
       (Except.ok (([sampleRead72, sampleUnread72].take (1 : Int).toNat).filter
            (fun m => m.unread)),
        { samplePO72 with boxes := (updateBox samplePO72.boxes "n"
            (([sampleRead72, sampleUnread72].take (1 : Int).toNat).map
                (fun m => { m with unread := false })
              ++ [sampleRead72, sampleUnread72].drop (1 : Int).toNat)) })) :=
  ⟨(read_inbox_window_amended samplePO73 "a" [sampleRead, sampleUnread] (by decide)
      samplePO72 "n" [sampleRead72, sampleUnread72] (by decide) 5).1.1 (by decide),
   (read_inbox_window_amended samplePO73 "a" [sampleRead, sampleUnread] (by decide)
      samplePO72 "n" [sampleRead72, sampleUnread72] (by decide) 1).1.2 (by decide),
   (read_inbox_window_amended samplePO73 "a" [sampleRead, sampleUnread] (by decide)
      samplePO72 "n" [sampleRead72, sampleUnread72] (by decide) 5).2.2.1 (by decide)
     (by decide),
   (read_inbox_window_amended samplePO73 "a" [sampleRead, sampleUnread] (by decide)
      samplePO72 "n" [sampleRead72, sampleUnread72] (by decide) 1).2.2.2 (by decide)
     (by decide)⟩

/-! ### C4 -/

/-- C4: a successful send places the message at the front of the recipient's
mailbox when urgent and at the back otherwise, keeping the previous entries
intact and in order; two urgent sends to the same mailbox leave the second
urgent message in front of the first; mailboxes of other users are
untouched.  Both implementations. -/
theorem send_urgent_front
    (po : W73.PostOffice) (m m2 : W73.Message) (box : List W73.Message)
    (h : lookupBox po.boxes m.recipient = some box)
    (h2 : m2.recipient = m.recipient)
    (po' : W72.PostOffice) (s r b s2 b2 : String) (box' : List W72.MessageDetails)
    (h' : lookupBox po'.boxes r = some box') :
    (lookupBox (W73.send_message po m true).2.boxes m.recipient = some (m :: box))
    ∧ (lookupBox (W73.send_message po m false).2.boxes m.recipient = some (box ++ [m]))
    ∧ (∀ urgent : Bool, ∀ u' : String, u' ≠ m.recipient →
         lookupBox (W73.send_message po m urgent).2.boxes u' = lookupBox po.boxes u')
    ∧ (lookupBox (W73.send_message (W73.send_message po m true).2 m2 true).2.boxes
         m.recipient = some (m2 :: m :: box))
    ∧ (lookupBox (W72.send_message po' s r b true).2.boxes r
         = some ({ id := po'.message_id + 1, body := b, sender := s, unread := true } :: box'))
    ∧ (lookupBox (W72.send_message po' s r b false).2.boxes r
         = some (box' ++ [{ id := po'.message_id + 1, body := b, sender := s, unread := true }]))
    ∧ (∀ urgent : Bool, ∀ u' : String, u' ≠ r →
         lookupBox (W72.send_message po' s r b urgent).2.boxes u' = lookupBox po'.boxes u')
    ∧ (lookupBox (W72.send_message (W72.send_message po' s r b true).2 s2 r b2 true).2.boxes r
         = some ({ id := po'.message_id + 2, body := b2, sender := s2, unread := true }
             :: { id := po'.message_id + 1, body := b, sender := s, unread := true }
             :: box')) := by
  have e1 := W73.send_message_ok po m true box h
  have e0 := W73.send_message_ok po m false box h
  have f1 := W72.send_message_ok_w72 po' s r b true box' h'
  have f0 := W72.send_message_ok_w72 po' s r b false box' h'
  have hpo1 : lookupBox (W73.send_message po m true).2.boxes m.recipient
      = some (m :: box) := by
    rw [e1]
    exact lookup_update_self po.boxes m.recipient (m :: box) box h
  have hpo1' : lookupBox (W72.send_message po' s r b true).2.boxes r
      = some ({ id := po'.message_id + 1, body := b, sender := s, unread := true } :: box') := by
    rw [f1]
    exact lookup_update_self po'.boxes r _ box' h'
  refine ⟨hpo1, ?_, ?_, ?_, hpo1', ?_, ?_, ?_⟩
  · rw [e0]
    exact lookup_update_self po.boxes m.recipient (box ++ [m]) box h
  · intro urgent u' hu
    rw [W73.send_message_ok po m urgent box h]
    exact lookup_update_ne po.boxes m.recipient u' _ hu
  · have hpo2 : lookupBox (W73.send_message po m true).2.boxes m2.recipient
        = some (m :: box) := by rw [h2]; exact hpo1
    have e2 := W73.send_message_ok (W73.send_message po m true).2 m2 true (m :: box) hpo2
    rw [e2, h2]
    exact lookup_update_self _ _ _ _ hpo1
  · rw [f0]
    exact lookup_update_self po'.boxes r _ box' h'
  · intro urgent u' hu
    rw [W72.send_message_ok_w72 po' s r b urgent box' h']
    exact lookup_update_ne po'.boxes r u' _ hu
  · have f2 := W72.send_message_ok_w72 (W72.send_message po' s r b true).2 s2 r b2 true
      ({ id := po'.message_id + 1, body := b, sender := s, unread := true } :: box') hpo1'
    rw [f2]
    have : (W72.send_message po' s r b true).2.message_id = po'.message_id + 1 := by
      rw [f1]
    rw [this]
    exact lookup_update_self _ _ _ _ hpo1'

/-- Witness for C4: an urgent then a second urgent send to user `"b"` stack
front-first; a non-urgent send appends; user `"a"`'s mailbox is untouched;
likewise on the week-7.2 office. -/
theorem send_urgent_front_witness :
    (lookupBox (W73.send_message samplePO73 (W73.mkMessage "x" "b" "t" "one") true).2.boxes
        "b" = some [W73.mkMessage "x" "b" "t" "one"])
    ∧ (lookupBox (W73.send_message samplePO73 (W73.mkMessage "x" "b" "t" "one") false).2.boxes
        "b" = some [W73.mkMessage "x" "b" "t" "one"])
    ∧ (lookupBox (W73.send_message samplePO73 (W73.mkMessage "x" "b" "t" "one") true).2.boxes
        "a" = lookupBox samplePO73.boxes "a")
    ∧ (lookupBox (W73.send_message
          (W73.send_message samplePO73 (W73.mkMessage "x" "b" "t" "one") true).2
          (W73.mkMessage "y" "b" "t" "two") true).2.boxes "b"
        = some [W73.mkMessage "y" "b" "t" "two", W73.mkMessage "x" "b" "t" "one"])
    ∧ (lookupBox (W72.send_message samplePO72 "p" "n" "hello" true).2.boxes "n"
        = some ({ id := 8, body := "hello", sender := "p", unread := true }
            :: [sampleRead72, sampleUnread72]))
    ∧ (lookupBox (W72.send_message samplePO72 "p" "n" "hello" false).2.boxes "n"
        = some ([sampleRead72, sampleUnread72]
            ++ [{ id := 8, body := "hello", sender := "p", unread := true }]))
    ∧ (lookupBox (W72.send_message samplePO72 "p" "n" "hello" true).2.boxes "zz"
        = lookupBox samplePO72.boxes "zz")
    ∧ (lookupBox (W72.send_message
          (W72.send_message samplePO72 "p" "n" "hello" true).2 "q" "n" "world" true).2.boxes
        "n"
        = some ({ id := 9, body := "world", sender := "q", unread := true }
            :: { id := 8, body := "hello", sender := "p", unread := true }
            :: [sampleRead72, sampleUnread72])) := by
  have T := send_urgent_front samplePO73 (W73.mkMessage "x" "b" "t" "one")
    (W73.mkMessage "y" "b" "t" "two") [] (by decide) (by decide)
    samplePO72 "p" "n" "hello" "q" "world" [sampleRead72, sampleUnread72] (by decide)
  exact ⟨T.1, T.2.1, T.2.2.1 true "a" (by decide), T.2.2.2.1, T.2.2.2.2.1,
    T.2.2.2.2.2.1, T.2.2.2.2.2.2.1 true "zz" (by decide), T.2.2.2.2.2.2.2⟩

/-! ### C5 -/

/-- C5: each of `send_message`, `read_inbox` and `search_inbox` of the
week-7.3 office fails — and then precisely with the `RecipientNotFound`
kind — exactly when the username (for send, the message's recipient) is
absent from the mailbox mapping; on a registered username none of them
fails, whatever the count or search string. -/
theorem ops_fail_iff_unregistered
    (po : W73.PostOffice) (m : W73.Message) (urgent : Bool)
    (u : String) (c : Int) (s : String) :
    ((W73.send_message po m urgent).1 = Except.error PostError.recipientNotFound
        ↔ lookupBox po.boxes m.recipient = none)
    ∧ ((W73.send_message po m urgent).1.isOk = true
        ↔ (lookupBox po.boxes m.recipient).isSome = true)
    ∧ ((W73.read_inbox po u c).1 = Except.error PostError.recipientNotFound
        ↔ lookupBox po.boxes u = none)
    ∧ ((W73.read_inbox po u c).1.isOk = true
        ↔ (lookupBox po.boxes u).isSome = true)
    ∧ ((W73.search_inbox po u s).1 = Except.error PostError.recipientNotFound
        ↔ lookupBox po.boxes u = none)
    ∧ ((W73.search_inbox po u s).1.isOk = true
        ↔ (lookupBox po.boxes u).isSome = true) := by
  refine ⟨?_, ?_, ?_, ?_, ?_, ?_⟩
  · cases hl : lookupBox po.boxes m.recipient <;>
      simp [W73.send_message, hl, Except.isOk, Except.toBool]
  · cases hl : lookupBox po.boxes m.recipient <;>
      simp [W73.send_message, hl, Except.isOk, Except.toBool]
  · cases hl : lookupBox po.boxes u <;>
      simp [W73.read_inbox, hl, Except.isOk, Except.toBool]
  · cases hl : lookupBox po.boxes u <;>
      simp [W73.read_inbox, hl, Except.isOk, Except.toBool]
  · cases hl : lookupBox po.boxes u <;>
      simp [W73.search_inbox, hl, Except.isOk, Except.toBool]
  · cases hl : lookupBox po.boxes u <;>
      simp [W73.search_inbox, hl, Except.isOk, Except.toBool]

/-! ### Substring semantics -/

/-- The function `startsWith` decides the prefix relation. -/
theorem startsWith_iff : ∀ (s p : List Char), startsWith s p = true ↔ p <+: s
  | _, [] => by simp [startsWith, List.nil_prefix]
  | [], _ :: _ => by simp [startsWith, List.prefix_nil]
  | a :: s, b :: p => by
    rw [startsWith, Bool.and_eq_true, beq_iff_eq, startsWith_iff s p,
      List.cons_prefix_cons]
    constructor
    · rintro ⟨h1, h2⟩
      exact ⟨h1.symm, h2⟩
    · rintro ⟨h1, h2⟩
      exact ⟨h1.symm, h2⟩

/-- The function `hasSubstr` decides the contiguous-occurrence (infix) relation. -/
theorem hasSubstr_iff : ∀ (s p : List Char), hasSubstr s p = true ↔ p <:+: s
  | [], p => by simp [hasSubstr, startsWith_iff, List.prefix_nil, List.infix_nil]
  | _ :: s, p => by
    rw [hasSubstr, Bool.or_eq_true, startsWith_iff, hasSubstr_iff s p,
      List.infix_cons_iff]

/-- The model of Python's `sub in body` is exactly the case-sensitive
literal-substring relation on the underlying character lists. -/
theorem containsSubstr_iff_infix (body sub : String) :
    containsSubstr body sub = true ↔ sub.data <:+: body.data :=
  hasSubstr_iff body.data sub.data

/-! ### C6 -/

/-- C6: for a registered user, `search_inbox` scans the whole mailbox (not
a window) and returns, in mailbox order, exactly the messages whose body
contains the search string as a case-sensitive literal substring — whatever
their read state — while the office state is left completely unchanged.
Both implementations. -/
theorem search_inbox_filter
    (po : W73.PostOffice) (u s : String) (box : List W73.Message)
    (h : lookupBox po.boxes u = some box)
    (po' : W72.PostOffice) (u' s' : String) (box' : List W72.MessageDetails)
    (h' : lookupBox po'.boxes u' = some box') :
    ((W73.search_inbox po u s).1
        = Except.ok (box.filter (fun m => containsSubstr m.body s))
     ∧ (W73.search_inbox po u s).2 = po
     ∧ (box.filter (fun m => containsSubstr m.body s)).Sublist box
     ∧ (∀ m : W73.Message,
          m ∈ box.filter (fun m => containsSubstr m.body s)
            ↔ m ∈ box ∧ s.data <:+: m.body.data))
    ∧ ((W72.search_inbox po' u' s').1
        = Except.ok (box'.filter (fun m => containsSubstr m.body s'))
     ∧ (W72.search_inbox po' u' s').2 = po'
     ∧ (box'.filter (fun m => containsSubstr m.body s')).Sublist box'
     ∧ (∀ m : W72.MessageDetails,
          m ∈ box'.filter (fun m => containsSubstr m.body s')
            ↔ m ∈ box' ∧ s'.data <:+: m.body.data)) := by
  have e := W73.search_inbox_ok po u s box h
  have e' := W72.search_inbox_ok_w72 po' u' s' box' h'
  refine ⟨⟨?_, ?_, List.filter_sublist box, ?_⟩, ?_, ?_, List.filter_sublist box', ?_⟩
  · rw [e]
  · rw [e]
  · intro m
    simp only [List.mem_filter, containsSubstr_iff_infix]
  · rw [e']
  · rw [e']
  · intro m
    simp only [List.mem_filter, containsSubstr_iff_infix]

/-- Witness for C6 on the sample offices: searching `"world"` matches only
the (already read) first message, searching `"are"` matches only the unread
week-7.2 entry, and neither search changes the state. -/
theorem search_inbox_filter_witness :
    ((W73.search_inbox samplePO73 "a" "world").1
        = Except.ok ([sampleRead, sampleUnread].filter (fun m => containsSubstr m.body "world"))
     ∧ (W73.search_inbox samplePO73 "a" "world").2 = samplePO73
     ∧ ([sampleRead, sampleUnread].filter
          (fun m => containsSubstr m.body "world")).Sublist [sampleRead, sampleUnread]
     ∧ (sampleRead ∈ [sampleRead, sampleUnread].filter
            (fun m => containsSubstr m.body "world")
          ↔ sampleRead ∈ [sampleRead, sampleUnread]
            ∧ "world".data <:+: sampleRead.body.data))
    ∧ ((W72.search_inbox samplePO72 "n" "are").1
        = Except.ok ([sampleRead72, sampleUnread72].filter
            (fun m => containsSubstr m.body "are"))
     ∧ (W72.search_inbox samplePO72 "n" "are").2 = samplePO72
     ∧ ([sampleRead72, sampleUnread72].filter
          (fun m => containsSubstr m.body "are")).Sublist [sampleRead72, sampleUnread72]
     ∧ (sampleUnread72 ∈ [sampleRead72, sampleUnread72].filter
            (fun m => containsSubstr m.body "are")
          ↔ sampleUnread72 ∈ [sampleRead72, sampleUnread72]
            ∧ "are".data <:+: sampleUnread72.body.data)) := by
  have E := search_inbox_filter samplePO73 "a" "world" [sampleRead, sampleUnread] (by decide)
    samplePO72 "n" "are" [sampleRead72, sampleUnread72] (by decide)
  exact ⟨⟨E.1.1, E.1.2.1, E.1.2.2.1, E.1.2.2.2 sampleRead⟩,
    E.2.1, E.2.2.1, E.2.2.2.1, E.2.2.2.2 sampleUnread72⟩

/-! ### C7 -/

/-- C7: a successful week-7.3 send stores the argument message itself,
unmodified — in particular its `message_id` keeps its pre-call value and is
not synchronized with the returned counter value, and its read flag is
whatever it was — while the mailboxes of every other user stay unchanged. -/
theorem send_does_not_assign_id
    (po : W73.PostOffice) (m : W73.Message) (urgent : Bool)
    (box : List W73.Message) (h : lookupBox po.boxes m.recipient = some box) :
    (W73.send_message po m urgent).1 = Except.ok (po.message_id + 1)
    ∧ lookupBox (W73.send_message po m urgent).2.boxes m.recipient
        = some (if urgent then m :: box else box ++ [m])
    ∧ (∀ u' : String, u' ≠ m.recipient →
         lookupBox (W73.send_message po m urgent).2.boxes u' = lookupBox po.boxes u') := by
  have e := W73.send_message_ok po m urgent box h
  refine ⟨?_, ?_, ?_⟩
  · rw [e]
  · rw [e]
    exact lookup_update_self po.boxes m.recipient _ box h
  · intro u' hu
    rw [e]
    exact lookup_update_ne po.boxes m.recipient u' _ hu

/-- Witness for C7: a freshly constructed message (placeholder id 1, read
flag false) sent non-urgently to `"b"` on the sample office is returned id
6, yet sits in the mailbox with id 1 and read flag false, and `"a"`'s
mailbox is untouched. -/
theorem send_does_not_assign_id_witness :
    (W73.mkMessage "x" "b" "t" "hi").message_id = 1
    ∧ (W73.mkMessage "x" "b" "t" "hi").is_read = false
    ∧ (1 : Int) ≠ (6 : Int)
    ∧ (W73.send_message samplePO73 (W73.mkMessage "x" "b" "t" "hi") false).1
        = Except.ok 6
    ∧ lookupBox (W73.send_message samplePO73 (W73.mkMessage "x" "b" "t" "hi") false).2.boxes
        "b" = some [W73.mkMessage "x" "b" "t" "hi"]
    ∧ lookupBox (W73.send_message samplePO73 (W73.mkMessage "x" "b" "t" "hi") false).2.boxes
        "a" = lookupBox samplePO73.boxes "a" := by
  have T := send_does_not_assign_id samplePO73 (W73.mkMessage "x" "b" "t" "hi") false []
    (by decide)
  exact ⟨by decide, by decide, by decide, T.1, T.2.1, T.2.2 "a" (by decide)⟩

/-! ### C8 -/

/-- C8: for a registered user, reading the inbox with the ALL sentinel twice
in a row leaves nothing unread for the second call, which returns the empty
sequence; in both implementations. -/
theorem read_inbox_twice_empty
    (po : W73.PostOffice) (u : String) (box : List W73.Message)
    (h : lookupBox po.boxes u = some box)
    (po' : W72.PostOffice) (u' : String) (box' : List W72.MessageDetails)
    (h' : lookupBox po'.boxes u' = some box') :
    (W73.read_inbox (W73.read_inbox po u (-1)).2 u (-1)).1 = Except.ok []
    ∧ (W72.read_inbox (W72.read_inbox po' u' (-1)).2 u' (-1)).1 = Except.ok [] := by
  have e := W73.read_inbox_whole po u (-1) box h (Or.inl rfl)
  have e' := W72.read_inbox_all po' u' box' h'
  constructor
  · have h1 : lookupBox (W73.read_inbox po u (-1)).2.boxes u
        = some (box.map (fun m => { m with is_read := true })) := by
      rw [e]
      exact lookup_update_self po.boxes u _ box h
    have hnil : (box.map (fun m => ({ m with is_read := true } : W73.Message))).filter
        (fun m => m.is_read == false) = [] := by
      rw [List.filter_eq_nil_iff]
      intro a ha
      simp only [List.mem_map] at ha
      obtain ⟨x, -, rfl⟩ := ha
      simp
    rw [W73.read_inbox_whole _ u (-1) _ h1 (Or.inl rfl), hnil]
  · have h1 : lookupBox (W72.read_inbox po' u' (-1)).2.boxes u'
        = some (box'.map (fun m => { m with unread := false })) := by
      rw [e']
      exact lookup_update_self po'.boxes u' _ box' h'
    have hnil : (box'.map (fun m => ({ m with unread := false } : W72.MessageDetails))).filter
        (fun m => m.unread) = [] := by
      rw [List.filter_eq_nil_iff]
      intro a ha
      simp only [List.mem_map] at ha
      obtain ⟨x, -, rfl⟩ := ha
      simp
    rw [W72.read_inbox_all _ u' _ h1, hnil]

/-- Witness for C8 on the sample offices: the second ALL read returns the
empty list. -/
theorem read_inbox_twice_empty_witness :
    (W73.read_inbox (W73.read_inbox samplePO73 "a" (-1)).2 "a" (-1)).1 = Except.ok []
    ∧ (W72.read_inbox (W72.read_inbox samplePO72 "n" (-1)).2 "n" (-1)).1
        = Except.ok [] :=
  read_inbox_twice_empty samplePO73 "a" [sampleRead, sampleUnread] (by decide)
    samplePO72 "n" [sampleRead72, sampleUnread72] (by decide)

/-! ### C9 -/

/-- C9: a send to an unregistered recipient fails before any mutation — the
lookup precedes the counter increment and the insertion — so the office
state is returned exactly as it was, and a following successful send still
returns the next consecutive id `counter + 1`; in both implementations. -/
theorem send_failure_preserves_state
    (po : W73.PostOffice) (m : W73.Message) (urgent : Bool)
    (h : lookupBox po.boxes m.recipient = none)
    (m2 : W73.Message) (urgent2 : Bool) (box2 : List W73.Message)
    (h2 : lookupBox po.boxes m2.recipient = some box2)
    (po' : W72.PostOffice) (s r b : String) (urgent' : Bool)
    (h' : lookupBox po'.boxes r = none)
    (s2 r2 b2 : String) (urgent2' : Bool) (box2' : List W72.MessageDetails)
    (h2' : lookupBox po'.boxes r2 = some box2') :
    W73.send_message po m urgent = (Except.error PostError.recipientNotFound, po)
    ∧ (W73.send_message (W73.send_message po m urgent).2 m2 urgent2).1
        = Except.ok (po.message_id + 1)
    ∧ W72.send_message po' s r b urgent' = (Except.error PostError.recipientNotFound, po')
    ∧ (W72.send_message (W72.send_message po' s r b urgent').2 s2 r2 b2 urgent2').1
        = Except.ok (po'.message_id + 1) := by
  have e := W73.send_message_err po m urgent h
  have e' := W72.send_message_err_w72 po' s r b urgent' h'
  refine ⟨e, ?_, e', ?_⟩
  · rw [e, W73.send_message_ok po m2 urgent2 box2 h2]
  · rw [e', W72.send_message_ok_w72 po' s2 r2 b2 urgent2' box2' h2']

/-- Witness for C9: sending to the unknown user `"zzz"` on the sample
offices fails with `recipientNotFound`, changes nothing, and the next send
to a registered user is numbered 6 (respectively 8). -/
theorem send_failure_preserves_state_witness :
    W73.send_message samplePO73 (W73.mkMessage "q" "zzz" "t" "x") true
        = (Except.error PostError.recipientNotFound, samplePO73)
    ∧ (W73.send_message
         (W73.send_message samplePO73 (W73.mkMessage "q" "zzz" "t" "x") true).2
         (W73.mkMessage "q" "b" "t" "y") false).1 = Except.ok 6
    ∧ W72.send_message samplePO72 "q" "zzz" "x" true
        = (Except.error PostError.recipientNotFound, samplePO72)
    ∧ (W72.send_message (W72.send_message samplePO72 "q" "zzz" "x" true).2
         "q" "n" "y" false).1 = Except.ok 8 :=
  send_failure_preserves_state samplePO73 (W73.mkMessage "q" "zzz" "t" "x") true (by decide)
    (W73.mkMessage "q" "b" "t" "y") false [] (by decide)
    samplePO72 "q" "zzz" "x" true (by decide)
    "q" "n" "y" false [sampleRead72, sampleUnread72] (by decide)

/-! ### C10 -/

/-- C10: for a registered user, a count strictly below `-1` is not the ALL
sentinel and yields an empty scan range, so `read_inbox` does not fail: it
returns the empty sequence and leaves the office — every read flag
included — exactly unchanged; in both implementations. -/
theorem read_inbox_negative_count
    (po : W73.PostOffice) (u : String) (box : List W73.Message)
    (h : lookupBox po.boxes u = some box)
    (po' : W72.PostOffice) (u' : String) (box' : List W72.MessageDetails)
    (h' : lookupBox po'.boxes u' = some box')
    (c : Int) (hc : c < -1) :
    W73.read_inbox po u c = (Except.ok [], po)
    ∧ W72.read_inbox po' u' c = (Except.ok [], po') := by
  have ht : c.toNat = 0 := Int.toNat_eq_zero.mpr (by omega)
  constructor
  · have hc1 : ¬ (c = -1 ∨ c > (box.length : Int)) := by
      push_neg
      exact ⟨by omega, by omega⟩
    rw [W73.read_inbox_window po u c box h hc1, ht]
    simp [update_self_eq po.boxes u box h]
  · have hc2 : ¬ c > (box'.length : Int) := by omega
    rw [W72.read_inbox_window_w72 po' u' c box' h' (by omega) hc2, ht]
    simp [update_self_eq po'.boxes u' box' h']

/-- Witness for C10: count `-2` on the sample offices returns the empty
list and the state verbatim. -/
theorem read_inbox_negative_count_witness :
    W73.read_inbox samplePO73 "a" (-2) = (Except.ok [], samplePO73)
    ∧ W72.read_inbox samplePO72 "n" (-2) = (Except.ok [], samplePO72) :=
  read_inbox_negative_count samplePO73 "a" [sampleRead, sampleUnread] (by decide)
    samplePO72 "n" [sampleRead72, sampleUnread72] (by decide) (-2) (by decide)
